import Mathlib

/-!
Shallow embedding of the `agent_ai` repository's core: the usage-record cost
accumulator, the embedding cost computation, the two memory providers, the
knowledge-corpus similarity search and the pipeline orchestrator, together
with theorems settling the specification claims about them.

Conventions: Python `int` is modelled as `ℤ`, Python `float` as `ℚ`
(exact arithmetic), raising an exception as returning `Except.error`,
and each external remote call (OpenAI embedding, downstream tool HTTP
call, pgvector distance) as an input supplied to the function that makes
the call.
-/

/-- Python exceptions raised by the modelled code.  The payload carries the
offending value; the human-readable message text of the Python exception is
elided. -/
inductive PyError where
  /-- Exception `ValueError` raised for an invalid role (`memory_manager.py` line 116).  -/
  | valueError (role : String)
  /-- Exception `AttributeError` raised when an attribute lookup on a module fails;
  the payload is the missing attribute name. -/
  | attributeError (attr : String)
deriving DecidableEq, Repr

/-- The four token/cost accounting fields shared by every stage result dict
(`tokens_prompt`, `tokens_completion`, `tokens_total`, `cost_usd`). -/
@[ext]
structure UsageRecord where
  tokens_prompt : ℤ
  tokens_completion : ℤ
  tokens_total : ℤ
  cost_usd : ℚ
deriving DecidableEq, Repr

/-- The all-zero usage record (the identity of the merge). -/
def zeroRecord : UsageRecord :=
  { tokens_prompt := 0, tokens_completion := 0, tokens_total := 0, cost_usd := 0 }

/-- The cost-accumulator merge: the dict comprehension
`{k: sum(d[k] for d in cost_results_dicts) for k in (...)}` of
`agent_ai_brain.py` lines 214-222 and `memory_manager.py` lines 335-343,
summing each of the four fields independently over a list of records. -/
def merge (rs : List UsageRecord) : UsageRecord :=
  { tokens_prompt := (rs.map UsageRecord.tokens_prompt).sum
    tokens_completion := (rs.map UsageRecord.tokens_completion).sum
    tokens_total := (rs.map UsageRecord.tokens_total).sum
    cost_usd := (rs.map UsageRecord.cost_usd).sum }

/-- A stage result dict: a `response` plus the four usage fields
(the shape returned by `manager.run`, the tool endpoints and
`LongTermMemoryProvider.add_message`). -/
structure StageResult where
  response : String
  usage : UsageRecord
deriving DecidableEq, Repr

/-- Constant `INPUT_GUARDRAIL_DENIED_RESPONSE` from `agent_ai/utils/constants.py`. -/
def INPUT_GUARDRAIL_DENIED_RESPONSE : String :=
  "A mensagem está fora das diretrizes do agente. Por favor, tente novamente."

/-- Table `OPENAI_EMBEDDING_PRICES` from `agent_ai/utils/constants.py` lines 7-11:
each stored value is the Python expression `X / 1_000_000` with the source
comment `# USD/token` (so the stored value is a price per single token). -/
def OPENAI_EMBEDDING_PRICES : String → Option ℚ
  | "text-embedding-3-small" => some ((2 / 100) / 1000000)
  | "text-embedding-3-large" => some ((13 / 100) / 1000000)
  | "text-embedding-ada-002" => some ((10 / 100) / 1000000)
  | _ => none

/-- The USD-per-million-tokens price of each model: the numerator `X` of the
`X / 1_000_000  # USD/token` entries of `constants.py` (the per-token price
times one million).  Modelled from the spec: "a price table mapping model
name → USD per million tokens", used to compare the claim's cost formula
with the source's. -/
def specPricePerMillion : String → Option ℚ
  | "text-embedding-3-small" => some (2 / 100)
  | "text-embedding-3-large" => some (13 / 100)
  | "text-embedding-ada-002" => some (10 / 100)
  | _ => none

/-- The cost the spec claims: `total_tokens / 1,000,000 *
price_per_million[model]` with the table in USD per million tokens.
Modelled from the spec for comparison with the source's computation. -/
def specCost (model : String) (total_tokens : ℤ) : ℚ :=
  match specPricePerMillion model with
  | none => 0
  | some p => ((total_tokens : ℚ) / 1000000) * p

/-- The result of one external OpenAI embedding call as consumed by the code:
the returned vector (`response.data[0].embedding`) and the provider-reported
`response.usage.total_tokens`. -/
structure EmbedOutcome where
  embedding : List ℚ
  total_tokens : ℤ
deriving DecidableEq, Repr

namespace LongTermMemoryProvider

/-- Model of `LongTermMemoryProvider._compute_cost` (`memory_manager.py` lines
221-240): look the model up in `OPENAI_EMBEDDING_PRICES`; `0.0` when absent,
otherwise `(total_tokens / 1_000_000) * price`. -/
def compute_cost (model : String) (total_tokens : ℤ) : ℚ :=
  match OPENAI_EMBEDDING_PRICES model with
  | none => 0
  | some price_per_mtoken => ((total_tokens : ℚ) / 1000000) * price_per_mtoken

/-- Model of `LongTermMemoryProvider._embed_query` (`memory_manager.py` lines
245-285), as a function of the provider call's outcome: returns the vector
and the `cost_info` dict with `tokens_prompt = tokens_total = total_tokens`,
`tokens_completion = 0` and the computed cost. -/
def embed_query (model : String) (resp : EmbedOutcome) : List ℚ × UsageRecord :=
  (resp.embedding,
   { tokens_prompt := resp.total_tokens
     tokens_completion := 0
     tokens_total := resp.total_tokens
     cost_usd := compute_cost model resp.total_tokens })

end LongTermMemoryProvider

namespace EmbeddingSearch

/-- Model of `EmbeddingSearch._compute_cost` (`embedding_search.py` lines 48-67),
textually identical to `LongTermMemoryProvider._compute_cost`. -/
def compute_cost (model : String) (total_tokens : ℤ) : ℚ :=
  match OPENAI_EMBEDDING_PRICES model with
  | none => 0
  | some price_per_mtoken => ((total_tokens : ℚ) / 1000000) * price_per_mtoken

/-- Model of `EmbeddingSearch._embed_query` (`embedding_search.py` lines 72-112),
textually identical to `LongTermMemoryProvider._embed_query`. -/
def embed_query (model : String) (resp : EmbedOutcome) : List ℚ × UsageRecord :=
  (resp.embedding,
   { tokens_prompt := resp.total_tokens
     tokens_completion := 0
     tokens_total := resp.total_tokens
     cost_usd := compute_cost model resp.total_tokens })

end EmbeddingSearch

/-- An ephemeral message: the dict `{"role": ..., "content": ...,
"timestamp": datetime.now().isoformat()}` built by
`ShortTermMemoryProvider.add_message` (`memory_manager.py` lines 120-124).
The wall-clock timestamp is an input (a string) here. -/
structure Msg where
  role : String
  content : String
  timestamp : String
deriving DecidableEq, Repr

/-- One raw item of the Redis list backing the ephemeral store: either the
`json.dumps` serialization of a message (which `json.loads` decodes back),
or any other string, on which `json.loads` raises `JSONDecodeError`. -/
inductive RawItem where
  | ser (m : Msg)
  | corrupt (s : String)
deriving DecidableEq, Repr

/-- Decoding, i.e. `json.loads`, applied to a stored raw item: succeeds exactly on
serialized messages. -/
def RawItem.decode : RawItem → Option Msg
  | .ser m => some m
  | .corrupt _ => none

/-- The externally held Redis state for one session key: the ordered list at
the key and the remaining TTL armed on it. -/
structure RedisStore where
  items : List RawItem
  ttl : ℕ
deriving DecidableEq, Repr

/-- Model of `redis.lrange(key, -k, -1)` (`memory_manager.py` line 152): for `k ≥ 1`
the last `k` items of the list; for `k = 0` Python's `-0 == 0` makes the
call `LRANGE key 0 -1`, which returns the whole list. -/
def lrangeTail {α : Type} (l : List α) (k : ℕ) : List α :=
  if k = 0 then l else l.drop (l.length - k)

namespace ShortTermMemoryProvider

/-- Constant `ShortTermMemoryProvider.VALID_ROLES` (`memory_manager.py` line 66). -/
def VALID_ROLES : List String := ["user", "assistant"]

/-- The provider's configuration: `memory_size` from the config file and the
`ttl_seconds` constructor argument (default 600). -/
structure Config where
  memory_size : ℕ
  ttl : ℕ := 600

/-- Model of `ShortTermMemoryProvider.add_message` (`memory_manager.py` lines
96-130): raise `ValueError` when the role is invalid (before touching the
store); otherwise `rpush` the serialized item to the tail and `expire` the
key, resetting its TTL to the configured window. -/
def add_message (cfg : Config) (s : RedisStore)
    (role message timestamp : String) : Except PyError RedisStore :=
  if role ∉ VALID_ROLES then
    .error (.valueError role)
  else
    .ok { items := s.items ++ [RawItem.ser ⟨role, message, timestamp⟩]
          ttl := cfg.ttl }

/-- The decoding loop of `ShortTermMemoryProvider.get_messages`
(`memory_manager.py` lines 156-163): `json.loads` each raw item in order,
`continue`-ing past the ones that raise `JSONDecodeError`. -/
def decodeAll : List RawItem → List Msg
  | [] => []
  | r :: rest =>
    match r.decode with
    | some m => m :: decodeAll rest
    | none => decodeAll rest

/-- Model of `ShortTermMemoryProvider.get_messages` (`memory_manager.py` lines
132-163): `lrange` the last `memory_size` items, then decode them, skipping
corrupted entries. -/
def get_messages (cfg : Config) (s : RedisStore) : List Msg :=
  decodeAll (lrangeTail s.items cfg.memory_size)

/-- Harness: perform a sequence of `add_message` calls, each keeping the
previous store when the call raises. -/
def appendAll (cfg : Config) (s : RedisStore) (msgs : List Msg) : RedisStore :=
  msgs.foldl
    (fun st m =>
      match add_message cfg st m.role m.content m.timestamp with
      | .ok st2 => st2
      | .error _ => st)
    s

theorem decodeAll_eq_filterMap (l : List RawItem) :
    decodeAll l = l.filterMap RawItem.decode := by
  induction l with
  | nil => rfl
  | cons r rest ih =>
    cases r <;> simp [decodeAll, RawItem.decode, List.filterMap_cons, ih]

theorem decodeAll_map_ser (l : List Msg) :
    decodeAll (l.map RawItem.ser) = l := by
  induction l with
  | nil => rfl
  | cons m rest ih => simp [decodeAll, RawItem.decode, ih]

theorem add_message_valid (cfg : Config) (s : RedisStore)
    (role message timestamp : String) (h : role ∈ VALID_ROLES) :
    add_message cfg s role message timestamp =
      .ok { items := s.items ++ [RawItem.ser ⟨role, message, timestamp⟩]
            ttl := cfg.ttl } := by
  simp [add_message, h]

theorem appendAll_items (cfg : Config) (msgs : List Msg) :
    ∀ s : RedisStore, (∀ m ∈ msgs, m.role ∈ VALID_ROLES) →
      (appendAll cfg s msgs).items = s.items ++ msgs.map RawItem.ser := by
  induction msgs with
  | nil => intro s _; simp [appendAll]
  | cons m rest ih =>
    intro s hroles
    have hm : m.role ∈ VALID_ROLES := hroles m (List.mem_cons_self m rest)
    have hrest : ∀ x ∈ rest, x.role ∈ VALID_ROLES :=
      fun x hx => hroles x (List.mem_cons_of_mem m hx)
    have step : appendAll cfg s (m :: rest) =
        appendAll cfg
          { items := s.items ++ [RawItem.ser ⟨m.role, m.content, m.timestamp⟩]
            ttl := cfg.ttl } rest := by
      simp [appendAll, add_message_valid _ _ _ _ _ hm]
    rw [step, ih _ hrest]
    simp

end ShortTermMemoryProvider

/-- A row of the `agent.agent_knowledge_embeddings` table
(`db_agent_ai/agent/agent_knowledge_embeddings.py`), restricted to the
columns the search selects. -/
structure AgentKnowledgeEmbeddings where
  id : ℤ
  application : String
  file_name : String
  content : String
  embedding : List ℚ
deriving DecidableEq, Repr

/-- One entry of the `similar_docs` list built by
`EmbeddingSearch.get_similar_embeddings` (`embedding_search.py` lines
172-181). -/
structure SimilarDoc where
  id : ℤ
  file_name : String
  application : String
  content : String
  score : ℚ
deriving DecidableEq, Repr

namespace EmbeddingSearch

/-- The row-to-dict projection of the search's `select` list: the four
columns plus the labelled `cosine_similarity` score. -/
def mkDoc (c : AgentKnowledgeEmbeddings) (score : ℚ) : SimilarDoc :=
  { id := c.id, file_name := c.file_name, application := c.application
    content := c.content, score := score }

/-- Model of `EmbeddingSearch.get_similar_embeddings` (`embedding_search.py` lines
117-183): embed the query, then run the `select` over the whole
`agent_knowledge_embeddings` table — it carries no `where` clause — ordered
by `(1 - cosine_distance).desc()` with `limit top_n`, and return the rows
with the embedding's own usage record.  The external pgvector
`cosine_distance` operator is the input `dist`; the database's
descending-order-with-limit read is modelled by a stable descending sort
followed by `take`. -/
def get_similar_embeddings (store : List AgentKnowledgeEmbeddings)
    (dist : List ℚ → List ℚ → ℚ) (model : String) (resp : EmbedOutcome)
    (query : String) (top_n : ℕ) : List SimilarDoc × UsageRecord :=
  let query_embedding := (embed_query model resp).1
  let embedding_cost := (embed_query model resp).2
  let rows :=
    ((store.map fun c =>
        mkDoc c (1 - dist c.embedding query_embedding)).mergeSort
      fun a b => decide (b.score ≤ a.score)).take top_n
  (rows, embedding_cost)

end EmbeddingSearch

/-- One row of the alarm dataframe returned by the external
`ALARMIMG_WTG_API` call, restricted to the columns
`device_alarms_tool.py` reads. -/
structure AlarmRow where
  name : String
  component_name : String
  output : String
  status : String
  total_above_threshold : ℤ
  rank_text : String
deriving DecidableEq, Repr

/-- The `device_alarms` sub-agent's structured extraction (the `AlarmQuery`
schema of `server/schemas/reference.py`) together with the agent call's
usage fields. -/
structure AlarmQueryResult where
  device_name : String
  end_time : String
  usage : UsageRecord
deriving DecidableEq, Repr

/-- Python semantics of the expression `datetime.now()` in
`device_alarms_tool.py` line 73: the file imports the *module* (`import
datetime`, line 1), and the module `datetime` has no attribute `now` (the
method lives on the `datetime.datetime` class), so evaluating the
expression raises `AttributeError` instead of producing today's date. -/
def datetime_now : Except PyError String := .error (.attributeError "now")

/-- Model of `device_alarms_tool` (`device_alarms_tool.py` lines 39-113), as a
function of the sub-agent's extraction and of the external alarm API
(a map from the posted `end_time` to the returned rows): default the empty
cutoff date via `datetime.now()` (which raises), fetch and filter the
alarm rows by device name when one was extracted, otherwise return the
guidance message asking for a device name. -/
def device_alarms_tool (extraction : AlarmQueryResult)
    (alarmsApi : String → List AlarmRow) : Except PyError StageResult := do
  let end_time := extraction.end_time
  let effective_end ← if end_time ≠ "" then pure end_time else datetime_now
  let rows := alarmsApi effective_end
  let device_name := extraction.device_name
  if device_name ≠ "" then
    let filtered := rows.filter fun r => r.name = device_name
    pure { response :=
            "Alarmes encontrados para o dispositivo " ++ device_name ++
              " no período " ++ end_time ++ ":\n\n" ++
              String.intercalate "\n\n" (filtered.map fun row =>
                "Componente: " ++ row.component_name ++ "\n" ++
                "Variable: " ++ row.output ++ "\n" ++
                "Status: " ++ row.status ++ "\n" ++
                "Pontos acima do threshold: " ++
                  toString row.total_above_threshold ++ "\n" ++
                "Rank: " ++ row.rank_text ++ "\n")
           usage := extraction.usage }
  else
    pure { response :=
            "Por favor, informe o nome do dispositivo para buscar os alarmes."
           usage := extraction.usage }

/-- A persisted row of the `agent.long_term_memory` table
(`db_agent_ai/agent/long_term_memory.py`), as built by
`LongTermMemoryProvider.add_message`; the database-assigned id and
timestamp are omitted. -/
structure LongTermMemory where
  user_id : String
  session_id : String
  agent_name : String
  role : String
  message : String
  embedding : List ℚ
  usage_info : UsageRecord
deriving DecidableEq, Repr

namespace LongTermMemoryProvider

/-- Model of `LongTermMemoryProvider.add_message` (`memory_manager.py` lines
287-370), as a function of the store contents and of the embedding call's
outcome: embed the message, merge the caller-supplied usage with the
embedding's `cost_info`, persist the row with the merged usage attached,
and return the updated result. -/
def add_message (model user_id session_id : String)
    (store : List LongTermMemory) (agent_name role : String)
    (result : StageResult) (resp : EmbedOutcome) :
    List LongTermMemory × StageResult :=
  let embedding := (embed_query model resp).1
  let cost_info := (embed_query model resp).2
  let total_cost := merge [result.usage, cost_info]
  let updated_result : StageResult :=
    { response := result.response, usage := total_cost }
  (store ++
      [{ user_id := user_id, session_id := session_id
         agent_name := agent_name, role := role
         message := result.response, embedding := embedding
         usage_info := total_cost }],
   updated_result)

end LongTermMemoryProvider

/-- The outcomes of the external calls made while serving one
`/agent_ai_brain` request: the agents' model calls (`manager.run`), the
three embedding calls, the knowledge corpus and its distance operator, the
downstream tool responses, and the two wall-clock timestamps.  Supplying
them as one record makes the orchestrator a pure function of its inputs. -/
structure Env where
  message : String
  user_id : String
  session_id : String
  embedModel : String
  guardrail : StageResult
  ts_user : String
  userEmbed : EmbedOutcome
  rewriter : StageResult
  knowledgeStore : List AgentKnowledgeEmbeddings
  dist : List ℚ → List ℚ → ℚ
  searchEmbed : EmbedOutcome
  intent : String
  classifierUsage : UsageRecord
  userManualResult : StageResult
  deviceAlarmsResult : StageResult
  energyOnlyResult : StageResult
  ts_assistant : String
  assistantEmbed : EmbedOutcome

/-- The mutable state one request touches: the session's Redis log and the
`long_term_memory` table. -/
structure SysState where
  short : RedisStore
  long : List LongTermMemory
deriving DecidableEq, Repr

/-- The branch dispatch of `agent_ai_brain.py` lines 128-195: the tool
selected by string comparison on the classifier's extracted intent. -/
def selectedBranch (e : Env) : StageResult :=
  if e.intent = "user_manual" then e.userManualResult
  else if e.intent = "device_alarms" then e.deviceAlarmsResult
  else e.energyOnlyResult

/-- The `agent_name` variable left by the branch dispatch, used when
persisting the assistant turn. -/
def selectedAgentName (e : Env) : String :=
  if e.intent = "user_manual" then "user_manual"
  else if e.intent = "device_alarms" then "device_alarms"
  else "energy_only"

/-- The `/agent_ai_brain` pipeline (`agent_ai_brain.py` lines 39-237):
guardrail with short-circuit on `"DENIED"`; ephemeral + semantic write of
the user turn; rewrite; knowledge search with `top_n=5`; intent
classification; branch dispatch; ephemeral write of the assistant turn;
merge of the six collected usage dicts; and the final semantic write of the
assistant turn, whose returned merged record is the response. -/
def agent_ai_brain (cfg : ShortTermMemoryProvider.Config) (e : Env)
    (st : SysState) : Except PyError (SysState × StageResult) := do
  let input_guardrail_result := e.guardrail
  if input_guardrail_result.response = "DENIED" then
    return (st, { input_guardrail_result with
                  response := INPUT_GUARDRAIL_DENIED_RESPONSE })
  else
    let short1 ← ShortTermMemoryProvider.add_message cfg st.short "user"
      e.message e.ts_user
    let (long1, add_user_long_term_memory_result) :=
      LongTermMemoryProvider.add_message e.embedModel e.user_id e.session_id
        st.long "user" "user" { response := e.message, usage := zeroRecord }
        e.userEmbed
    let rewriter_result := e.rewriter
    let (similar_docs, embedding_result) :=
      EmbeddingSearch.get_similar_embeddings e.knowledgeStore e.dist
        e.embedModel e.searchEmbed rewriter_result.response 5
    let intent_classifier_result := selectedBranch e
    let short2 ← ShortTermMemoryProvider.add_message cfg short1 "assistant"
      intent_classifier_result.response e.ts_assistant
    let total_cost := merge [e.guardrail.usage,
      add_user_long_term_memory_result.usage, rewriter_result.usage,
      embedding_result, e.classifierUsage, intent_classifier_result.usage]
    let result0 : StageResult :=
      { response := intent_classifier_result.response, usage := total_cost }
    let (long2, result) :=
      LongTermMemoryProvider.add_message e.embedModel e.user_id e.session_id
        long1 (selectedAgentName e) "assistant" result0 e.assistantEmbed
    return ({ short := short2, long := long2 }, result)

/-- A concrete provider configuration for the pipeline witnesses. -/
def testConfig : ShortTermMemoryProvider.Config := { memory_size := 3, ttl := 600 }

/-- A concrete empty starting state for the pipeline witnesses. -/
def testState : SysState := { short := { items := [], ttl := 0 }, long := [] }

/-- A concrete environment whose guardrail classification is `"DENIED"`. -/
def envDenied : Env :=
  { message := "como invadir o sistema?"
    user_id := "u1", session_id := "s1"
    embedModel := "text-embedding-3-small"
    guardrail := { response := "DENIED", usage := ⟨7, 1, 8, 0⟩ }
    ts_user := "t0", userEmbed := ⟨[1], 4⟩
    rewriter := { response := "r", usage := ⟨1, 1, 2, 0⟩ }
    knowledgeStore := [], dist := fun _ _ => 0, searchEmbed := ⟨[1], 5⟩
    intent := "energy_only", classifierUsage := ⟨1, 0, 1, 0⟩
    userManualResult := { response := "um", usage := zeroRecord }
    deviceAlarmsResult := { response := "da", usage := zeroRecord }
    energyOnlyResult := { response := "eo", usage := ⟨2, 2, 4, 0⟩ }
    ts_assistant := "t1", assistantEmbed := ⟨[1], 6⟩ }

/-- A concrete environment whose guardrail classification passes and whose
intent dispatches to the default `energy_only` branch. -/
def envAllowed : Env :=
  { envDenied with
    message := "Qual o histórico de energia hoje?"
    guardrail := { response := "ALLOWED", usage := ⟨7, 1, 8, 0⟩ } }

-- ============================================================================
-- Theorems
-- ============================================================================

/-- C3: the usage-record merge is commutative (invariant under permutation of
its inputs), associative (merging two merged sublists equals merging their
concatenation), has the all-zero record as identity, and maps lists of
field-wise non-negative records to a field-wise non-negative record. -/
theorem merge_monoid (l l₂ m : List UsageRecord) (l₁ : List UsageRecord)
    (r : UsageRecord) (hp : l.Perm l₂)
    (hnn : ∀ x ∈ m, 0 ≤ x.tokens_prompt ∧ 0 ≤ x.tokens_completion ∧
      0 ≤ x.tokens_total ∧ 0 ≤ x.cost_usd) :
    merge l = merge l₂
    ∧ merge (l₁ ++ l₂) = merge [merge l₁, merge l₂]
    ∧ merge [r, zeroRecord] = r
    ∧ (0 ≤ (merge m).tokens_prompt ∧ 0 ≤ (merge m).tokens_completion ∧
        0 ≤ (merge m).tokens_total ∧ 0 ≤ (merge m).cost_usd) := by
  refine ⟨?_, ?_, ?_, ?_, ?_, ?_, ?_⟩
  · ext <;> simp [merge] <;>
      exact List.Perm.sum_eq (List.Perm.map _ hp)
  · ext <;> simp [merge]
  · ext <;> simp [merge, zeroRecord]
  · exact List.sum_nonneg fun x hx => by
      obtain ⟨y, hy, rfl⟩ := List.mem_map.mp hx
      exact (hnn y hy).1
  · exact List.sum_nonneg fun x hx => by
      obtain ⟨y, hy, rfl⟩ := List.mem_map.mp hx
      exact (hnn y hy).2.1
  · exact List.sum_nonneg fun x hx => by
      obtain ⟨y, hy, rfl⟩ := List.mem_map.mp hx
      exact (hnn y hy).2.2.1
  · exact List.sum_nonneg fun x hx => by
      obtain ⟨y, hy, rfl⟩ := List.mem_map.mp hx
      exact (hnn y hy).2.2.2

/-- Witness for C3 at concrete records. -/
theorem merge_monoid_witness :
    merge [⟨1, 2, 3, 4⟩, ⟨5, 6, 7, 8⟩] = merge [⟨5, 6, 7, 8⟩, ⟨1, 2, 3, 4⟩]
    ∧ merge ([⟨1, 2, 3, 4⟩] ++ [⟨5, 6, 7, 8⟩, ⟨1, 2, 3, 4⟩]) =
        merge [merge [⟨1, 2, 3, 4⟩], merge [⟨5, 6, 7, 8⟩, ⟨1, 2, 3, 4⟩]]
    ∧ merge [⟨9, 9, 9, 9⟩, zeroRecord] = ⟨9, 9, 9, 9⟩
    ∧ (0 ≤ (merge [zeroRecord]).tokens_prompt ∧
        0 ≤ (merge [zeroRecord]).tokens_completion ∧
        0 ≤ (merge [zeroRecord]).tokens_total ∧
        0 ≤ (merge [zeroRecord]).cost_usd) :=
  merge_monoid [(⟨1, 2, 3, 4⟩ : UsageRecord), ⟨5, 6, 7, 8⟩]
    [(⟨5, 6, 7, 8⟩ : UsageRecord), ⟨1, 2, 3, 4⟩]
    [zeroRecord] [(⟨1, 2, 3, 4⟩ : UsageRecord)] ⟨9, 9, 9, 9⟩
    (List.Perm.swap (⟨5, 6, 7, 8⟩ : UsageRecord) ⟨1, 2, 3, 4⟩ [])
    (by
      intro x hx
      simp only [List.mem_singleton] at hx
      subst hx
      refine ⟨le_refl 0, le_refl 0, le_refl 0, le_refl 0⟩)

/-- C5: when the embedding model is absent from `OPENAI_EMBEDDING_PRICES`,
both `_compute_cost` implementations return exactly `0.0` (and, being total
functions, raise no error), and the `cost_usd` of the usage record built by
both `_embed_query` implementations is `0.0`. -/
theorem compute_cost_unknown_model (model : String) (t : ℤ) (resp : EmbedOutcome)
    (h : OPENAI_EMBEDDING_PRICES model = none) :
    LongTermMemoryProvider.compute_cost model t = 0
    ∧ EmbeddingSearch.compute_cost model t = 0
    ∧ (LongTermMemoryProvider.embed_query model resp).2.cost_usd = 0
    ∧ (EmbeddingSearch.embed_query model resp).2.cost_usd = 0 := by
  refine ⟨?_, ?_, ?_, ?_⟩ <;>
    simp [LongTermMemoryProvider.compute_cost, EmbeddingSearch.compute_cost,
      LongTermMemoryProvider.embed_query, EmbeddingSearch.embed_query, h]

/-- Witness for C5 at the unknown model name `"gpt-4o"`. -/
theorem compute_cost_unknown_model_witness :
    LongTermMemoryProvider.compute_cost "gpt-4o" 12345 = 0
    ∧ EmbeddingSearch.compute_cost "gpt-4o" 12345 = 0
    ∧ (LongTermMemoryProvider.embed_query "gpt-4o" ⟨[1, 0], 12345⟩).2.cost_usd = 0
    ∧ (EmbeddingSearch.embed_query "gpt-4o" ⟨[1, 0], 12345⟩).2.cost_usd = 0 :=
  compute_cost_unknown_model "gpt-4o" 12345 ⟨[1, 0], 12345⟩ rfl

/-- C10: every usage record built by an embedding call, in both the semantic
memory provider and the knowledge-search engine, has `tokens_completion = 0`
and `tokens_prompt = tokens_total =` the provider-reported total. -/
theorem embed_query_token_shape (model : String) (resp : EmbedOutcome) :
    ((LongTermMemoryProvider.embed_query model resp).2.tokens_completion = 0
      ∧ (LongTermMemoryProvider.embed_query model resp).2.tokens_prompt = resp.total_tokens
      ∧ (LongTermMemoryProvider.embed_query model resp).2.tokens_total = resp.total_tokens)
    ∧ ((EmbeddingSearch.embed_query model resp).2.tokens_completion = 0
      ∧ (EmbeddingSearch.embed_query model resp).2.tokens_prompt = resp.total_tokens
      ∧ (EmbeddingSearch.embed_query model resp).2.tokens_total = resp.total_tokens) :=
  ⟨⟨rfl, rfl, rfl⟩, ⟨rfl, rfl, rfl⟩⟩

/-- C4 (code bug): at the failing input, model `"text-embedding-3-small"`
with `total_tokens = 1,000,000`, the source's `_compute_cost` returns
`0.02 / 1,000,000` dollars, one million times less than the `0.02` dollars
the claim's formula (`total_tokens / 1e6 ×` the USD-per-million-tokens
price) gives; and for each model of the price table, for every token count,
the source's result is the claimed result divided by one million, because
the table stores a per-token price (its own `# USD/token` comment) that
`_compute_cost` divides by a million a second time. -/
theorem compute_cost_underreports :
    LongTermMemoryProvider.compute_cost "text-embedding-3-small" 1000000 =
      (2 / 100) / 1000000
    ∧ specCost "text-embedding-3-small" 1000000 = 2 / 100
    ∧ LongTermMemoryProvider.compute_cost "text-embedding-3-small" 1000000 ≠
        specCost "text-embedding-3-small" 1000000
    ∧ (∀ t : ℤ, ∀ m ∈ ["text-embedding-3-small", "text-embedding-3-large",
          "text-embedding-ada-002"],
        LongTermMemoryProvider.compute_cost m t = specCost m t / 1000000
        ∧ EmbeddingSearch.compute_cost m t = specCost m t / 1000000) := by
  refine ⟨?_, ?_, ?_, ?_⟩
  · norm_num [LongTermMemoryProvider.compute_cost, OPENAI_EMBEDDING_PRICES]
  · norm_num [specCost, specPricePerMillion]
  · norm_num [LongTermMemoryProvider.compute_cost, OPENAI_EMBEDDING_PRICES,
      specCost, specPricePerMillion]
  · intro t m hm
    simp only [List.mem_cons, List.not_mem_nil, or_false] at hm
    rcases hm with rfl | rfl | rfl <;>
      constructor <;>
        · simp only [LongTermMemoryProvider.compute_cost,
            EmbeddingSearch.compute_cost, OPENAI_EMBEDDING_PRICES,
            specCost, specPricePerMillion]
          ring

/-- C6: an ephemeral append with a role outside `{user, assistant}` raises
`ValueError` and never produces a written store (no entry pushed, no TTL
reset), while an append with a valid role succeeds, appends exactly one
serialized entry at the tail, and resets the log's TTL to the configured
window. -/
theorem short_add_message_spec (cfg : ShortTermMemoryProvider.Config)
    (s s₂ : RedisStore) (role content ts role₂ content₂ ts₂ : String)
    (hbad : role ∉ ShortTermMemoryProvider.VALID_ROLES)
    (hgood : role₂ ∈ ShortTermMemoryProvider.VALID_ROLES) :
    ShortTermMemoryProvider.add_message cfg s role content ts =
      .error (.valueError role)
    ∧ (∀ s3 : RedisStore,
        ShortTermMemoryProvider.add_message cfg s role content ts ≠ .ok s3)
    ∧ ShortTermMemoryProvider.add_message cfg s₂ role₂ content₂ ts₂ =
        .ok { items := s₂.items ++ [RawItem.ser ⟨role₂, content₂, ts₂⟩]
              ttl := cfg.ttl } := by
  refine ⟨?_, ?_, ?_⟩
  · simp [ShortTermMemoryProvider.add_message, hbad]
  · intro s3
    simp [ShortTermMemoryProvider.add_message, hbad]
  · exact ShortTermMemoryProvider.add_message_valid cfg s₂ role₂ content₂ ts₂ hgood

/-- Witness for C6: role `"system"` is rejected without a write, role
`"user"` is appended at the tail with the TTL reset to 600. -/
theorem short_add_message_spec_witness :
    ShortTermMemoryProvider.add_message ⟨3, 600⟩ ⟨[], 0⟩ "system" "hi" "t0" =
      .error (.valueError "system")
    ∧ (∀ s3 : RedisStore,
        ShortTermMemoryProvider.add_message ⟨3, 600⟩ ⟨[], 0⟩ "system" "hi" "t0" ≠
          .ok s3)
    ∧ ShortTermMemoryProvider.add_message ⟨3, 600⟩ ⟨[], 0⟩ "user" "hi" "t1" =
        .ok { items := ([] : List RawItem) ++ [RawItem.ser ⟨"user", "hi", "t1"⟩]
              ttl := 600 } :=
  short_add_message_spec ⟨3, 600⟩ ⟨[], 0⟩ ⟨[], 0⟩ "system" "hi" "t0" "user" "hi" "t1"
    (by decide) (by decide)

/-- C7 (amended: the window `K` must be at least 1; a configured
`memory_size` of 0 makes the Redis `LRANGE` call return the whole log): a
read over a log built by `N` valid appends returns exactly the last
`min(N, K)` messages in insertion order, and over any raw log the read
decodes the window slice, silently skipping entries that fail to decode. -/
theorem get_messages_window (cfg : ShortTermMemoryProvider.Config)
    (msgs : List Msg) (raw : List RawItem) (t : ℕ)
    (hK : 1 ≤ cfg.memory_size)
    (hroles : ∀ m ∈ msgs, m.role ∈ ShortTermMemoryProvider.VALID_ROLES) :
    ShortTermMemoryProvider.get_messages cfg
        (ShortTermMemoryProvider.appendAll cfg ⟨[], 0⟩ msgs) =
      msgs.drop (msgs.length - cfg.memory_size)
    ∧ (ShortTermMemoryProvider.get_messages cfg
        (ShortTermMemoryProvider.appendAll cfg ⟨[], 0⟩ msgs)).length =
        min msgs.length cfg.memory_size
    ∧ ShortTermMemoryProvider.get_messages cfg ⟨raw, t⟩ =
        (lrangeTail raw cfg.memory_size).filterMap RawItem.decode := by
  have hitems : (ShortTermMemoryProvider.appendAll cfg ⟨[], 0⟩ msgs).items =
      msgs.map RawItem.ser := by
    simpa using ShortTermMemoryProvider.appendAll_items cfg msgs ⟨[], 0⟩ hroles
  have hK0 : cfg.memory_size ≠ 0 := by omega
  have hmain : ShortTermMemoryProvider.get_messages cfg
      (ShortTermMemoryProvider.appendAll cfg ⟨[], 0⟩ msgs) =
      msgs.drop (msgs.length - cfg.memory_size) := by
    rw [ShortTermMemoryProvider.get_messages, hitems, lrangeTail, if_neg hK0]
    rw [List.length_map, ← List.map_drop,
      ShortTermMemoryProvider.decodeAll_map_ser]
  refine ⟨hmain, ?_, ?_⟩
  · rw [hmain, List.length_drop]
    omega
  · rw [ShortTermMemoryProvider.get_messages,
      ShortTermMemoryProvider.decodeAll_eq_filterMap]

/-- Witness for C7 at a 3-message log with window 2 and a raw log holding a
corrupted entry. -/
theorem get_messages_window_witness :
    ShortTermMemoryProvider.get_messages ⟨2, 600⟩
        (ShortTermMemoryProvider.appendAll ⟨2, 600⟩ ⟨[], 0⟩
          [⟨"user", "a", "t1"⟩, ⟨"assistant", "b", "t2"⟩, ⟨"user", "c", "t3"⟩]) =
      ([⟨"user", "a", "t1"⟩, ⟨"assistant", "b", "t2"⟩,
        ⟨"user", "c", "t3"⟩] : List Msg).drop
        (([⟨"user", "a", "t1"⟩, ⟨"assistant", "b", "t2"⟩,
          ⟨"user", "c", "t3"⟩] : List Msg).length - 2)
    ∧ (ShortTermMemoryProvider.get_messages ⟨2, 600⟩
        (ShortTermMemoryProvider.appendAll ⟨2, 600⟩ ⟨[], 0⟩
          [⟨"user", "a", "t1"⟩, ⟨"assistant", "b", "t2"⟩, ⟨"user", "c", "t3"⟩])).length =
        min ([⟨"user", "a", "t1"⟩, ⟨"assistant", "b", "t2"⟩,
          ⟨"user", "c", "t3"⟩] : List Msg).length 2
    ∧ ShortTermMemoryProvider.get_messages ⟨2, 600⟩
        ⟨[RawItem.corrupt "zzz", RawItem.ser ⟨"user", "a", "t1"⟩], 5⟩ =
        (lrangeTail [RawItem.corrupt "zzz", RawItem.ser ⟨"user", "a", "t1"⟩]
          2).filterMap RawItem.decode :=
  get_messages_window ⟨2, 600⟩
    [⟨"user", "a", "t1"⟩, ⟨"assistant", "b", "t2"⟩, ⟨"user", "c", "t3"⟩]
    [RawItem.corrupt "zzz", RawItem.ser ⟨"user", "a", "t1"⟩] 5
    (by decide) (by decide)

/-- C7 counterexample: with configured window `K = 0`, one appended entry,
the claim demands the last `min(1, 0) = 0` entries, but the read returns
the whole log (`LRANGE key 0 -1`): one entry, not zero. -/
theorem get_messages_window_zero_counterexample :
    ShortTermMemoryProvider.get_messages ⟨0, 600⟩
        (ShortTermMemoryProvider.appendAll ⟨0, 600⟩ ⟨[], 0⟩
          [⟨"user", "hi", "t0"⟩]) = [⟨"user", "hi", "t0"⟩]
    ∧ min 1 0 = 0
    ∧ (ShortTermMemoryProvider.get_messages ⟨0, 600⟩
        (ShortTermMemoryProvider.appendAll ⟨0, 600⟩ ⟨[], 0⟩
          [⟨"user", "hi", "t0"⟩])).length ≠ 0 := by
  refine ⟨rfl, rfl, by decide⟩

theorem EmbeddingSearch.mem_get_similar (store : List AgentKnowledgeEmbeddings)
    (dist : List ℚ → List ℚ → ℚ) (model query : String) (resp : EmbedOutcome)
    (n : ℕ) (h : store.length ≤ n) (c : AgentKnowledgeEmbeddings)
    (hc : c ∈ store) :
    EmbeddingSearch.mkDoc c (1 - dist c.embedding resp.embedding) ∈
      (EmbeddingSearch.get_similar_embeddings store dist model resp query n).1 := by
  unfold EmbeddingSearch.get_similar_embeddings
  simp only
  rw [List.take_of_length_le (by simpa [List.length_mergeSort] using h)]
  exact (List.mergeSort_perm _ _).mem_iff.mpr
    (List.mem_map_of_mem (fun c => EmbeddingSearch.mkDoc c
      (1 - dist c.embedding (EmbeddingSearch.embed_query model resp).1)) hc)

/-- C8 (amended: the query carries no filter at all — neither per-user nor
per-application; the `select` of `get_similar_embeddings` has no `where`
clause, so returned chunks are not scoped to an application partition):
the search returns at most `top_n` rows, ranked by descending
`score = 1 − cosine_distance` drawn from the knowledge corpus, together
with the query embedding's own usage record. -/
theorem get_similar_embeddings_spec (store : List AgentKnowledgeEmbeddings)
    (dist : List ℚ → List ℚ → ℚ) (model query : String) (resp : EmbedOutcome)
    (n : ℕ) :
    (EmbeddingSearch.get_similar_embeddings store dist model resp query n).1.length ≤ n
    ∧ List.Pairwise (fun a b : SimilarDoc => b.score ≤ a.score)
        (EmbeddingSearch.get_similar_embeddings store dist model resp query n).1
    ∧ (∀ d ∈ (EmbeddingSearch.get_similar_embeddings store dist model resp query n).1,
        ∃ c ∈ store,
          d = EmbeddingSearch.mkDoc c (1 - dist c.embedding resp.embedding))
    ∧ (EmbeddingSearch.get_similar_embeddings store dist model resp query n).2 =
        (EmbeddingSearch.embed_query model resp).2 := by
  refine ⟨?_, ?_, ?_, rfl⟩
  · simpa [EmbeddingSearch.get_similar_embeddings] using
      min_le_left n _
  · have hs := @List.sorted_mergeSort SimilarDoc
      (fun a b : SimilarDoc => decide (b.score ≤ a.score))
      (fun a b c hab hbc => by
        simp only [decide_eq_true_eq] at hab hbc ⊢
        exact le_trans hbc hab)
      (fun a b => by
        simp only [Bool.or_eq_true, decide_eq_true_eq]
        exact le_total b.score a.score)
      (store.map fun c =>
        EmbeddingSearch.mkDoc c
          (1 - dist c.embedding (EmbeddingSearch.embed_query model resp).1))
    have hp : List.Pairwise (fun a b : SimilarDoc => b.score ≤ a.score)
        ((store.map fun c =>
          EmbeddingSearch.mkDoc c
            (1 - dist c.embedding (EmbeddingSearch.embed_query model resp).1)).mergeSort
          fun a b => decide (b.score ≤ a.score)) :=
      hs.imp fun h => by simpa using h
    exact List.Pairwise.sublist (List.take_sublist n _) hp
  · intro d hd
    have hd2 : d ∈ ((store.map fun c =>
        EmbeddingSearch.mkDoc c
          (1 - dist c.embedding (EmbeddingSearch.embed_query model resp).1)).mergeSort
        fun a b => decide (b.score ≤ a.score)) :=
      (List.take_sublist n _).subset hd
    have hd3 := (List.mergeSort_perm _ _).mem_iff.mp hd2
    obtain ⟨c, hc, rfl⟩ := List.mem_map.mp hd3
    exact ⟨c, hc, rfl⟩

/-- C8 counterexample: over a two-chunk corpus whose chunks belong to two
different applications, `get_similar_embeddings` returns both chunks in one
result, so the returned set is contained in no single application
partition. -/
theorem get_similar_no_application_scope :
    (∃ d₁ ∈ (EmbeddingSearch.get_similar_embeddings
        [⟨1, "appA", "a.md", "xa", [1]⟩, ⟨2, "appB", "b.md", "xb", [1]⟩]
        (fun _ _ => 0) "text-embedding-3-small" ⟨[1], 1⟩ "q" 5).1,
      ∃ d₂ ∈ (EmbeddingSearch.get_similar_embeddings
        [⟨1, "appA", "a.md", "xa", [1]⟩, ⟨2, "appB", "b.md", "xb", [1]⟩]
        (fun _ _ => 0) "text-embedding-3-small" ⟨[1], 1⟩ "q" 5).1,
        d₁.application ≠ d₂.application)
    ∧ ¬ ∃ app : String,
        ∀ d ∈ (EmbeddingSearch.get_similar_embeddings
          [⟨1, "appA", "a.md", "xa", [1]⟩, ⟨2, "appB", "b.md", "xb", [1]⟩]
          (fun _ _ => 0) "text-embedding-3-small" ⟨[1], 1⟩ "q" 5).1,
          d.application = app := by
  have h₁ := EmbeddingSearch.mem_get_similar
    [⟨1, "appA", "a.md", "xa", [1]⟩, ⟨2, "appB", "b.md", "xb", [1]⟩]
    (fun _ _ => 0) "text-embedding-3-small" "q" ⟨[1], 1⟩ 5 (by norm_num)
    ⟨1, "appA", "a.md", "xa", [1]⟩ (by simp)
  have h₂ := EmbeddingSearch.mem_get_similar
    [⟨1, "appA", "a.md", "xa", [1]⟩, ⟨2, "appB", "b.md", "xb", [1]⟩]
    (fun _ _ => 0) "text-embedding-3-small" "q" ⟨[1], 1⟩ 5 (by norm_num)
    ⟨2, "appB", "b.md", "xb", [1]⟩ (by simp)
  refine ⟨⟨_, h₁, _, h₂, ?_⟩, ?_⟩
  · simp [EmbeddingSearch.mkDoc]
  · rintro ⟨app, hall⟩
    have e₁ := hall _ h₁
    have e₂ := hall _ h₂
    simp only [EmbeddingSearch.mkDoc] at e₁ e₂
    rw [← e₂] at e₁
    exact absurd e₁ (by decide)

/-- C9 (code bug evaluation): when the sub-agent's extracted cutoff date is
empty, `device_alarms_tool` raises `AttributeError` (the `datetime.now()`
call on the `datetime` module) instead of substituting today's date; when
the date is present but the device name is empty, it returns the guidance
message asking for the device name. -/
theorem device_alarms_empty_date_raises (ex ex₂ : AlarmQueryResult)
    (api api₂ : String → List AlarmRow)
    (h : ex.end_time = "") (h₂ : ex₂.end_time ≠ "") (h₃ : ex₂.device_name = "") :
    device_alarms_tool ex api = .error (.attributeError "now")
    ∧ device_alarms_tool ex₂ api₂ =
        .ok { response :=
                "Por favor, informe o nome do dispositivo para buscar os alarmes."
              usage := ex₂.usage } := by
  constructor
  · simp only [device_alarms_tool, h, ne_eq, not_true_eq_false, ite_false,
      if_neg]
    rfl
  · simp only [device_alarms_tool, h₃, ne_eq, not_true_eq_false, if_neg h₂,
      ite_not, if_pos]
    simp [h₂, Except.bind]
    rfl

/-- Witness for C9: extraction `{device_name: "GOB-02", end_time: ""}`
raises, extraction `{device_name: "", end_time: "2025-01-01"}` returns the
guidance message. -/
theorem device_alarms_empty_date_raises_witness :
    device_alarms_tool ⟨"GOB-02", "", zeroRecord⟩ (fun _ => []) =
      .error (.attributeError "now")
    ∧ device_alarms_tool ⟨"", "2025-01-01", zeroRecord⟩ (fun _ => []) =
        .ok { response :=
                "Por favor, informe o nome do dispositivo para buscar os alarmes."
              usage := zeroRecord } :=
  device_alarms_empty_date_raises ⟨"GOB-02", "", zeroRecord⟩
    ⟨"", "2025-01-01", zeroRecord⟩ (fun _ => []) (fun _ => [])
    rfl (by decide) rfl

theorem except_bind_ok {ε α β : Type} (a : α) (f : α → Except ε β) :
    (Except.ok a : Except ε α) >>= f = f a := rfl

theorem merge_merge_seven (a b c d f g x : UsageRecord) :
    merge [merge [a, b, c, d, f, g], x] = merge [a, b, c, d, f, g, x] := by
  ext <;> simp [merge] <;> ring

theorem ShortTermMemoryProvider.add_message_user
    (cfg : ShortTermMemoryProvider.Config) (s : RedisStore) (m ts : String) :
    ShortTermMemoryProvider.add_message cfg s "user" m ts =
      .ok { items := s.items ++ [RawItem.ser ⟨"user", m, ts⟩], ttl := cfg.ttl } :=
  ShortTermMemoryProvider.add_message_valid cfg s "user" m ts (by decide)

theorem ShortTermMemoryProvider.add_message_assistant
    (cfg : ShortTermMemoryProvider.Config) (s : RedisStore) (m ts : String) :
    ShortTermMemoryProvider.add_message cfg s "assistant" m ts =
      .ok { items := s.items ++ [RawItem.ser ⟨"assistant", m, ts⟩]
            ttl := cfg.ttl } :=
  ShortTermMemoryProvider.add_message_valid cfg s "assistant" m ts (by decide)

/-- C2: on a guardrail classification of `"DENIED"`, the pipeline returns
normally (no error) with the fixed denial message and the guardrail's own
usage as the total, and both memory stores are exactly the initial ones —
no ephemeral entry, no TTL reset, no semantic row. -/
theorem agent_ai_brain_guardrail_denial (cfg : ShortTermMemoryProvider.Config)
    (e : Env) (st : SysState) (hg : e.guardrail.response = "DENIED") :
    agent_ai_brain cfg e st =
      .ok (st, { response := INPUT_GUARDRAIL_DENIED_RESPONSE
                 usage := e.guardrail.usage }) := by
  simp [agent_ai_brain, hg]
  rfl

/-- Witness for C2 at a concrete denied environment. -/
theorem agent_ai_brain_guardrail_denial_witness :
    agent_ai_brain testConfig envDenied testState =
      .ok (testState, { response := INPUT_GUARDRAIL_DENIED_RESPONSE
                        usage := envDenied.guardrail.usage }) :=
  agent_ai_brain_guardrail_denial testConfig envDenied testState rfl

/-- C1: on a request that passes the guardrail, the pipeline returns
normally, and the usage attached to the final response is the field-wise
merge of exactly the seven executed stage records: guardrail, the user
semantic-memory-write record (the zero user input merged with its embedding
cost), rewrite, the knowledge-search embedding record, intent
classification, the selected branch's record, and the assistant
semantic-memory-write's embedding record, merged in by the final
`add_message`. -/
theorem agent_ai_brain_total_cost (cfg : ShortTermMemoryProvider.Config)
    (e : Env) (st : SysState) (hg : e.guardrail.response ≠ "DENIED") :
    ∃ st2 : SysState,
      agent_ai_brain cfg e st =
        .ok (st2,
          { response := (selectedBranch e).response
            usage := merge [e.guardrail.usage,
              (LongTermMemoryProvider.add_message e.embedModel e.user_id
                e.session_id st.long "user" "user"
                { response := e.message, usage := zeroRecord } e.userEmbed).2.usage,
              e.rewriter.usage,
              (EmbeddingSearch.get_similar_embeddings e.knowledgeStore e.dist
                e.embedModel e.searchEmbed e.rewriter.response 5).2,
              e.classifierUsage,
              (selectedBranch e).usage,
              (LongTermMemoryProvider.embed_query e.embedModel
                e.assistantEmbed).2] }) := by
  simp only [agent_ai_brain, if_neg hg,
    ShortTermMemoryProvider.add_message_user,
    ShortTermMemoryProvider.add_message_assistant, except_bind_ok,
    LongTermMemoryProvider.add_message]
  simp only [merge_merge_seven]
  exact ⟨_, rfl⟩

/-- Witness for C1 at a concrete allowed environment dispatching to the
`energy_only` branch. -/
theorem agent_ai_brain_total_cost_witness :
    ∃ st2 : SysState,
      agent_ai_brain testConfig envAllowed testState =
        .ok (st2,
          { response := (selectedBranch envAllowed).response
            usage := merge [envAllowed.guardrail.usage,
              (LongTermMemoryProvider.add_message envAllowed.embedModel
                envAllowed.user_id envAllowed.session_id testState.long "user"
                "user" { response := envAllowed.message, usage := zeroRecord }
                envAllowed.userEmbed).2.usage,
              envAllowed.rewriter.usage,
              (EmbeddingSearch.get_similar_embeddings envAllowed.knowledgeStore
                envAllowed.dist envAllowed.embedModel envAllowed.searchEmbed
                envAllowed.rewriter.response 5).2,
              envAllowed.classifierUsage,
              (selectedBranch envAllowed).usage,
              (LongTermMemoryProvider.embed_query envAllowed.embedModel
                envAllowed.assistantEmbed).2] }) :=
  agent_ai_brain_total_cost testConfig envAllowed testState (by decide)
